import Mathlib

/-!
Shallow embedding of the MailCannon repository (TypeScript/Next.js) in Lean 4,
used to settle the frozen claims about its specification.

Components embedded here, each from its source file:
* `src/app/actions/send-email.ts` — the bulk email dispatcher (`sendEmail`,
  `sendEmailSchema`), with the environment and the nodemailer transport
  modelled explicitly.
* `src/app/page.tsx` — the form orchestration (`onSubmit`), recipient
  splitting and HTML body construction.
* `src/lib/parse-resume.ts` — the document text extractor (`parseResume`),
  with the PDF and DOCX library extractors as oracles and the UTF-8 decoding
  of `Buffer.toString('utf-8')` implemented over byte lists.
* `generatePersonalizedApplication` (AI flow server action) — the CV
  truncation step before submission to the model capability.
* `useStats` — the usage counter with PIN-gated reset (`resetStats`).

JavaScript strings are modelled as Lean `String`, byte buffers as `List Nat`,
and `string | undefined` values as `Option String`.  All string operations
are implemented over `String.data` (lists of characters) so that every
definition evaluates inside the kernel.
-/

/-! ## Character-list string primitives

These mirror the JavaScript string operations used by the sources.  They are
written over `List Char` because Lean 4.14's byte-position `String` functions
do not reduce in the kernel. -/

/-- `l` starts with `p` (character-wise). Models `String.prototype.startsWith`. -/
def listStartsWith : List Char → List Char → Bool
  | _, [] => true
  | [], _ :: _ => false
  | c :: cs, d :: ds => c == d && listStartsWith cs ds

/-- `s.startsWith p` for strings, via their character lists. -/
def strStartsWith (s p : String) : Bool :=
  listStartsWith s.data p.data

/-- Split a character list at every character satisfying `sep`, keeping empty
segments — the semantics of JavaScript `String.prototype.split` with a
single-character-class pattern (without `+`). -/
def splitOnPred (sep : Char → Bool) : List Char → List (List Char)
  | [] => [[]]
  | c :: cs =>
    if sep c then [] :: splitOnPred sep cs
    else
      match splitOnPred sep cs with
      | [] => [[c]]
      | g :: gs => (c :: g) :: gs

/-- Whitespace as trimmed by `String.prototype.trim` (ASCII portion). -/
def isSpaceChar (c : Char) : Bool :=
  c == ' ' || c == '\t' || c == '\n' || c == '\r'

/-- Strip leading and trailing whitespace. Models `String.prototype.trim`. -/
def trimChars (l : List Char) : List Char :=
  ((l.dropWhile isSpaceChar).reverse.dropWhile isSpaceChar).reverse

/-! ## Email syntax (zod `z.string().email()`)

The schema in `send-email.ts` refines `from` and each `to` entry with zod's
`.email()` check.  zod's email validation is the anchored regular expression
(case-insensitive)
`(?!\.)(?!.*\.\.)([A-Z0-9_'+\-\.]*)[A-Z0-9_+\-]@([A-Z0-9][A-Z0-9\-]*\.)+[A-Z]{2,}`,
implemented here directly: since `@` occurs in no character class, a match
splits the string at its unique `@` into a local part and a domain. -/

/-- ASCII apostrophe, one of the characters zod allows in an email local part. -/
def apostropheChar : Char := Char.ofNat 39

/-- Characters allowed anywhere in the local part: `[A-Za-z0-9_'+\-\.]`. -/
def isLocalChar (c : Char) : Bool :=
  c.isAlphanum || c == '_' || c == apostropheChar || c == '+' || c == '-' || c == '.'

/-- Characters allowed as the final local-part character: `[A-Za-z0-9_+\-]`. -/
def isLocalEndChar (c : Char) : Bool :=
  c.isAlphanum || c == '_' || c == '+' || c == '-'

/-- Does the character list contain two consecutive dots?  Implements the
negative lookahead `(?!.*\.\.)`, which ranges over the whole address. -/
def hasDoubleDot : List Char → Bool
  | a :: b :: rest => (a == '.' && b == '.') || hasDoubleDot (b :: rest)
  | _ => false

/-- The local part matches `([A-Z0-9_'+\-\.]*)[A-Z0-9_+\-]`: nonempty, every
character allowed, and the final character in the restricted class. -/
def validLocalPart (l : List Char) : Bool :=
  match l.reverse with
  | [] => false
  | lastC :: frontRev => isLocalEndChar lastC && frontRev.all isLocalChar

/-- A non-final domain label matches `[A-Z0-9][A-Z0-9\-]*`. -/
def validDomainLabel (l : List Char) : Bool :=
  match l with
  | [] => false
  | c :: cs => c.isAlphanum && cs.all (fun d => d.isAlphanum || d == '-')

/-- The final domain label (TLD) matches `[A-Z]{2,}`. -/
def validTld (l : List Char) : Bool :=
  decide (2 ≤ l.length) && l.all Char.isAlpha

/-- The domain matches `([A-Z0-9][A-Z0-9\-]*\.)+[A-Z]{2,}`: at least two
dot-separated labels, the last a TLD, the others plain labels. -/
def validDomain (d : List Char) : Bool :=
  match (splitOnPred (fun c => c == '.') d).reverse with
  | [] => false
  | tld :: labelsRev => !labelsRev.isEmpty && validTld tld && labelsRev.all validDomainLabel

/-- zod's `z.string().email()` check, as used by `sendEmailSchema`. -/
def isValidEmail (s : String) : Bool :=
  match splitOnPred (fun c => c == '@') s.data with
  | [localPart, domain] =>
    !hasDoubleDot s.data &&
    (match s.data with
     | '.' :: _ => false
     | _ => true) &&
    validLocalPart localPart && validDomain domain
  | _ => false

/-! ## `src/app/actions/send-email.ts` — the bulk email dispatcher -/

/-- The process environment variables read by `sendEmail`.  A `none` models an
unset variable; JavaScript treats both `undefined` and `""` as falsy. -/
structure Env where
  gmailEmail : Option String
  gmailAppPassword : Option String
  gmailSenderName : Option String

/-- JavaScript truthiness of a `string | undefined` value. -/
def envTruthy : Option String → Bool
  | none => false
  | some s => !(s == "")

/-- `process.env.GMAIL_EMAIL` and `GMAIL_APP_PASSWORD` are both set (truthy):
the negation of the guard on line 26 of `send-email.ts`. -/
def envHasCreds (e : Env) : Bool :=
  envTruthy e.gmailEmail && envTruthy e.gmailAppPassword

/-- The optional attachment of `sendEmailSchema`: `content` (base64 string),
`filename`, `type`, each a plain `z.string()`. -/
structure AttachmentInput where
  content : String
  filename : String
  «type» : String
deriving DecidableEq, Repr

/-- The argument of `sendEmail`.  The schema declares `from` as required, but
the call site in `page.tsx` omits it, so at runtime the field may be absent:
it is modelled as an `Option`. -/
structure SendEmailInput where
  «from» : Option String
  «to» : List String
  subject : String
  html : String
  attachment : Option AttachmentInput
deriving DecidableEq, Repr

/-- `sendEmailSchema.safeParse` on a runtime value of the modelled shape.
The structure already carries the string typing; what remains to check are
the refinements: `from` present and a valid email, every `to` entry a valid
email.  `subject`, `html`, and the attachment fields are plain `z.string()`
and always pass. -/
def sendEmailSchemaCheck (d : SendEmailInput) : Bool :=
  (match d.«from» with
   | some s => isValidEmail s
   | none => false) &&
  d.«to».all isValidEmail

/-- The error payload of a failed `sendEmail`: the flattened zod error on a
validation failure, or the transport's error text. -/
inductive SendError where
  | validationError
  | transportError (msg : String)
deriving DecidableEq, Repr

/-- The resolved value of `sendEmail`: `{success, message?, error?}`. -/
structure SendResult where
  success : Bool
  message : Option String
  error : Option SendError
deriving DecidableEq, Repr

/-- The nodemailer attachment entry built by `sendEmail`. -/
structure MailAttachment where
  filename : String
  content : String
  encoding : String
  contentType : String
deriving DecidableEq, Repr

/-- The `mailOptions` object handed to `transporter.sendMail`. -/
structure MailOptions where
  «from» : String
  «to» : List String
  subject : String
  html : String
  attachments : List MailAttachment
deriving DecidableEq, Repr

/-- Build `mailOptions` as `sendEmail` does on its live path (lines 49–63):
sender name defaults to `"MailCannon"` when `GMAIL_SENDER_NAME` is unset or
empty, and the attachment list is `[entry]` or `[]`. -/
def mkMailOptions (e : Env) («to» : List String) (subject html : String)
    (attachment : Option AttachmentInput) : MailOptions :=
  let senderName := if envTruthy e.gmailSenderName then e.gmailSenderName.getD "" else "MailCannon"
  let fromAddress := "\"" ++ senderName ++ "\" <" ++ e.gmailEmail.getD "" ++ ">"
  { «from» := fromAddress
    «to» := «to»
    subject := subject
    html := html
    attachments :=
      match attachment with
      | some a => [{ filename := a.filename, content := a.content,
                     encoding := "base64", contentType := a.«type» }]
      | none => [] }

/-- The observable outcome of one `sendEmail` call: the returned value, the
sequence of `transporter.sendMail` invocations made, and whether
`sendEmailSchema.safeParse` was executed. -/
structure SendOutcome where
  result : SendResult
  transportCalls : List MailOptions
  validationRun : Bool
deriving DecidableEq, Repr

/-- `sendEmail` from `src/app/actions/send-email.ts`.  `transport` models
`transporter.sendMail`: `.ok` is a fulfilled send, `.error m` a rejection
whose error has message `m`.  The credential guard (line 26) returns the
simulated success before any validation; otherwise `safeParse` runs, a
failure returns the flattened error, and a success builds `mailOptions` and
invokes the transport exactly once. -/
def sendEmail (env : Env) (transport : MailOptions → Except String Unit)
    (data : SendEmailInput) : SendOutcome :=
  if !envHasCreds env then
    { result := { success := true
                  message := some ("Emailuri simulate cu succes pentru " ++
                    toString data.«to».length ++ " destinatari!")
                  error := none }
      transportCalls := []
      validationRun := false }
  else if !sendEmailSchemaCheck data then
    { result := { success := false, message := none, error := some .validationError }
      transportCalls := []
      validationRun := true }
  else
    let mailOptions := mkMailOptions env data.«to» data.subject data.html data.attachment
    match transport mailOptions with
    | .ok _ =>
      { result := { success := true
                    message := some ("Email trimis la " ++ toString data.«to».length ++
                      " destinatari.")
                    error := none }
        transportCalls := [mailOptions]
        validationRun := true }
    | .error m =>
      { result := { success := false, message := none
                    error := some (.transportError ("Trimiterea email-ului a eșuat: " ++ m)) }
        transportCalls := [mailOptions]
        validationRun := true }


/-! ## `src/app/page.tsx` — form orchestration (`onSubmit`) -/

/-- Modelled from the spec: `escapeHtml` is imported by `page.tsx` from
`src/lib/utils`, a file absent from this snapshot.  The spec requires that
caller-supplied plain text be HTML-escaped — escaping `&`, `<`, `>`, and
quotes — before any further formatting.  Each such character is replaced by
its HTML entity; all others pass through unchanged. -/
def escapeHtmlChar (c : Char) : String :=
  if c == '&' then "&amp;"
  else if c == '<' then "&lt;"
  else if c == '>' then "&gt;"
  else if c == '"' then "&quot;"
  else if c == apostropheChar then "&#39;"
  else String.mk [c]

/-- Modelled from the spec: HTML-escape a string (`&`, `<`, `>`, quotes). -/
def escapeHtml (s : String) : String :=
  s.data.foldr (fun c acc => escapeHtmlChar c ++ acc) ""

/-- `.replace(/\n/g, '<br>')`: every newline becomes `<br>`; the pattern is a
single character, so the global replace acts character-wise. -/
def newlineToBr (s : String) : String :=
  s.data.foldr (fun c acc => (if c == '\n' then "<br>" else String.mk [c]) ++ acc) ""

/-- The HTML body handed to `sendEmail` by `onSubmit` (page.tsx line 168):
`escapeHtml(data.message).replace(/\n/g, '<br>')`. -/
def buildHtmlBody (message : String) : String :=
  newlineToBr (escapeHtml message)

/-- A separator of the recipient-splitting pattern `[\n,;]+`. -/
def isRecipientSep (c : Char) : Bool :=
  c == '\n' || c == ',' || c == ';'

/-- `data.recipients.split(/[\n,;]+/).map(e => e.trim()).filter(e => e)`
(page.tsx line 154).  Splitting on the character class without `+` and then
filtering out empties yields the same list as the `+`-pattern split: the two
differ only in empty segments, which the `filter` removes. -/
def parseRecipients (raw : String) : List String :=
  (((splitOnPred isRecipientSep raw.data).map trimChars).filter
    (fun l => !l.isEmpty)).map String.mk

/-- The attachment file held in component state (`attachment : File`), with
its base64 content as produced by `fileToBase64`. -/
structure FileModel where
  name : String
  mimeType : String
  contentBase64 : String
deriving DecidableEq, Repr

/-- The validated form values (`formSchema`): all three nonemptiness checks
have passed by the time `onSubmit` runs; the raw strings are carried here. -/
structure FormData where
  recipients : String
  subject : String
  message : String
deriving DecidableEq, Repr

/-- A toast notification shown to the user. -/
structure Toast where
  destructive : Bool
  title : String
  description : String
deriving DecidableEq, Repr

/-- The observable outcome of one `onSubmit` run: toasts raised, the inputs
passed to `sendEmail`, and the transport calls those made in turn. -/
structure SubmitOutcome where
  toasts : List Toast
  sendEmailCalls : List SendEmailInput
  transportCalls : List MailOptions
deriving DecidableEq, Repr

/-- `onSubmit` from `page.tsx` (lines 140–199).  Guards in source order: a
missing attachment, then an empty parsed recipient list, each raises a
destructive toast and returns without calling `sendEmail`; otherwise
`sendEmail` is called once with the object literal of lines 165–174 (note:
no `from` field) and its result is translated into a success or failure
toast. -/
def onSubmit (env : Env) (transport : MailOptions → Except String Unit)
    (attachment : Option FileModel) (data : FormData) : SubmitOutcome :=
  match attachment with
  | none =>
    { toasts := [{ destructive := true, title := "No CV attached"
                   description := "Please attach your CV before sending." }]
      sendEmailCalls := [], transportCalls := [] }
  | some file =>
    let recipients := parseRecipients data.recipients
    if recipients.length == 0 then
      { toasts := [{ destructive := true, title := "No recipients"
                     description := "Please enter at least one recipient email." }]
        sendEmailCalls := [], transportCalls := [] }
    else
      let input : SendEmailInput :=
        { «from» := none
          «to» := recipients
          subject := data.subject
          html := buildHtmlBody data.message
          attachment := some { content := file.contentBase64
                               filename := file.name
                               «type» := file.mimeType } }
      let outcome := sendEmail env transport input
      let finalToast :=
        if outcome.result.success then
          { destructive := false, title := "Emails Sent!"
            description := (outcome.result.message.getD "") : Toast }
        else
          { destructive := true, title := "Failed to send emails"
            description :=
              match outcome.result.error with
              | some (.transportError m) => m
              | _ => "An unexpected error occurred. Check the server logs for details." }
      { toasts := [finalToast]
        sendEmailCalls := [input]
        transportCalls := outcome.transportCalls }


/-! ## UTF-8 over byte lists

`parse-resume.ts` decodes plain-text buffers with `buffer.toString('utf-8')`.
Node's decoder is total: well-formed sequences decode to their code points and
ill-formed bytes become U+FFFD replacement characters.  The codec below
implements standard UTF-8 over `List Nat` byte buffers, with replacement on
invalid input; only the behaviour on well-formed sequences is load-bearing
for the claims. -/

/-- UTF-8 encoding of one scalar value (a `Char` is a Unicode scalar, so the
four length classes cover it exactly). -/
def utf8EncodeChar (c : Char) : List Nat :=
  let n := c.toNat
  if n < 0x80 then [n]
  else if n < 0x800 then [0xC0 + n / 64, 0x80 + n % 64]
  else if n < 0x10000 then
    [0xE0 + n / 4096, 0x80 + (n / 64) % 64, 0x80 + n % 64]
  else
    [0xF0 + n / 262144, 0x80 + (n / 4096) % 64, 0x80 + (n / 64) % 64, 0x80 + n % 64]

/-- UTF-8 encoding of a string, character list by character list. -/
def utf8EncodeList : List Char → List Nat
  | [] => []
  | c :: cs => utf8EncodeChar c ++ utf8EncodeList cs

/-- UTF-8 encoding of a string. -/
def utf8Encode (s : String) : List Nat :=
  utf8EncodeList s.data

/-- The U+FFFD replacement character emitted for ill-formed input. -/
def replChar : Char := Char.ofNat 0xFFFD

/-- A UTF-8 continuation byte: `0x80 ≤ b < 0xC0`. -/
def isContByte (b : Nat) : Bool :=
  decide (0x80 ≤ b) && decide (b < 0xC0)

/-- Decode one scalar from a lead byte `b` and the remaining bytes, returning
the character and the bytes left.  Ill-formed input (stray continuation,
overlong form, surrogate, out-of-range, truncated sequence) yields U+FFFD.
Lead bytes `0xC0`/`0xC1` and `≥ 0xF5` can begin no well-formed sequence and
are rejected outright. -/
def utf8DecodeOne (b : Nat) (rest : List Nat) : Char × List Nat :=
  if b < 0x80 then (Char.ofNat b, rest)
  else if b < 0xC2 then (replChar, rest)
  else if b < 0xE0 then
    match rest with
    | b1 :: r =>
      if isContByte b1 then (Char.ofNat ((b - 0xC0) * 64 + (b1 - 0x80)), r)
      else (replChar, rest)
    | [] => (replChar, rest)
  else if b < 0xF0 then
    match rest with
    | b1 :: b2 :: r =>
      if isContByte b1 && isContByte b2 then
        let n := (b - 0xE0) * 4096 + (b1 - 0x80) * 64 + (b2 - 0x80)
        ((if n < 0x800 || (decide (0xD800 ≤ n) && decide (n < 0xE000)) then replChar
          else Char.ofNat n), r)
      else (replChar, rest)
    | _ => (replChar, rest)
  else if b < 0xF5 then
    match rest with
    | b1 :: b2 :: b3 :: r =>
      if isContByte b1 && isContByte b2 && isContByte b3 then
        let n := (b - 0xF0) * 262144 + (b1 - 0x80) * 4096 + (b2 - 0x80) * 64 + (b3 - 0x80)
        ((if n < 0x10000 || decide (0x110000 ≤ n) then replChar else Char.ofNat n), r)
      else (replChar, rest)
    | _ => (replChar, rest)
  else (replChar, rest)

/-- Decode a whole byte list to characters. -/
def utf8DecodeList (l : List Nat) : List Char :=
  match l with
  | [] => []
  | b :: rest =>
    let p := utf8DecodeOne b rest
    p.1 :: utf8DecodeList p.2
termination_by l.length
decreasing_by
  have hlen : (utf8DecodeOne b rest).2.length ≤ rest.length := by
    unfold utf8DecodeOne
    rcases rest with _ | ⟨b1, _ | ⟨b2, _ | ⟨b3, r⟩⟩⟩ <;>
      (repeat' split) <;> simp_all <;> omega
  simp only [List.length_cons]
  omega

/-- UTF-8 decoding of a byte buffer, as `buffer.toString('utf-8')`. -/
def utf8Decode (l : List Nat) : String :=
  String.mk (utf8DecodeList l)


/-! ## `src/lib/parse-resume.ts` — the document text extractor -/

/-- The DOCX mime type string compared on line 37 of `parse-resume.ts`. -/
def docxMimeType : String :=
  "application/vnd.openxmlformats-officedocument.wordprocessingml.document"

/-- `parseResume(buffer, mimeType)`.  The `pdf-parse` and `mammoth` library
extractors are oracles `pdfExtract`/`docxExtract`: `.ok t` models a
successful extraction of text `t`, `.error m` a thrown error with message
`m`.  Branches in source order: empty buffer returns `""`; PDF and DOCX
dispatch to their extractor, wrapping a failure's message; any `text/*` type
decodes the buffer as UTF-8; anything else throws the unsupported-type
error.  (`buffer.toString('utf-8')` is `utf8Decode`; the redundant
`text/plain`/`text/markdown` equality tests of line 49 are subsumed by the
`startsWith 'text/'` test and kept for fidelity.) -/
def parseResume (pdfExtract docxExtract : List Nat → Except String String)
    (buffer : List Nat) (mimeType : String) : Except String String :=
  if buffer.length == 0 then .ok ""
  else if mimeType == "application/pdf" then
    match pdfExtract buffer with
    | .ok t => .ok t
    | .error m => .error ("Failed to parse PDF file: " ++ m)
  else if mimeType == docxMimeType then
    match docxExtract buffer with
    | .ok t => .ok t
    | .error m => .error ("Failed to parse DOCX file: " ++ m)
  else if mimeType == "text/plain" || mimeType == "text/markdown" ||
      strStartsWith mimeType "text/" then
    .ok (utf8Decode buffer)
  else
    .error ("Unsupported file type: " ++ mimeType)

/-! ## `generatePersonalizedApplication` — CV truncation before the AI flow -/

/-- JavaScript `s.substring(0, n)`: the first `n` characters (all of `s` when
it is shorter). -/
def substringTo (s : String) (n : Nat) : String :=
  String.mk (s.data.take n)

/-- `MAX_CV_LENGTH` from `generatePersonalizedApplication`. -/
def MAX_CV_LENGTH : Nat := 100000

/-- The CV-truncation step (lines 171–176 of the flow): text longer than
`MAX_CV_LENGTH` is cut to its first `MAX_CV_LENGTH` characters with the
truncation marker appended; shorter text is unchanged. -/
def truncateCv (cvText : String) : String :=
  if cvText.length > MAX_CV_LENGTH then
    substringTo cvText MAX_CV_LENGTH ++ "\n...[Truncated]"
  else cvText

/-- The input object handed to `generatePersonalizedApplicationFlow` (and so
to the external model capability). -/
structure FlowInput where
  recipientEmail : String
  cv : String
  jobDescription : Option String
  personalNotes : Option String
deriving DecidableEq, Repr

/-- The structured output of the flow: `{subject, message}`. -/
structure FlowOutput where
  subject : String
  message : String
deriving DecidableEq, Repr

/-- The server action's argument (`ActionInputSchema`): optional `cv` text or
an optional base64 `cvFile` with `cvMimeType`. -/
structure GPAInput where
  recipientEmail : String
  cv : Option String
  cvFile : Option String
  cvMimeType : Option String
  jobDescription : Option String
  personalNotes : Option String
deriving DecidableEq, Repr

/-- The action's resolved value: `{success: true, data}` or
`{success: false, error}`. -/
inductive ActionResponse where
  | ok (data : FlowOutput)
  | err (error : String)
deriving DecidableEq, Repr

/-- Does `s` contain `sub`?  Via single-character-faithful splitting: a
nonempty pattern occurs in `s` exactly when splitting `s` on it yields more
than one piece.  Used for `error.message.includes("400")`. -/
def strContains400 (s : String) : Bool :=
  strContainsAux s.data
where
  /-- Scan for the substring `"400"`. -/
  strContainsAux : List Char → Bool
    | '4' :: '0' :: '0' :: _ => true
    | _ :: rest => strContainsAux rest
    | [] => false

/-- `generatePersonalizedApplication` (the flow server action, current
revision).  `base64Decode` models `Buffer.from(_, 'base64')`; `flow` models
`generatePersonalizedApplicationFlow` (the external model capability), with
`.error m` a rejection whose error has message `m`.  Control flow from the
source: resolve `cvText` from `cv` or by parsing the decoded `cvFile`;
missing CV content is an error; the text is truncated via `truncateCv`; the
flow is called once and its failure message is special-cased on `"400"`.
The second component records the inputs submitted to the flow. -/
def generatePersonalizedApplication
    (pdfExtract docxExtract : List Nat → Except String String)
    (base64Decode : String → List Nat)
    (flow : FlowInput → Except String FlowOutput)
    (input : GPAInput) : ActionResponse × List FlowInput :=
  match
    (if !(envTruthy input.cv) ∧ envTruthy input.cvFile ∧ envTruthy input.cvMimeType then
      match parseResume pdfExtract docxExtract
          (base64Decode (input.cvFile.getD "")) (input.cvMimeType.getD "") with
      | .error m => .error ("Failed to extract text from the attached CV: " ++ m)
      | .ok t => .ok (some t)
    else .ok input.cv : Except String (Option String)) with
  | .error m => (.err m, [])
  | .ok cvText1 =>
    if !(envTruthy cvText1) then
      (.err "CV content is required. Please provide cv text or a valid file.", [])
    else
      let cvText := truncateCv (cvText1.getD "")
      let flowInput : FlowInput :=
        { recipientEmail := input.recipientEmail, cv := cvText
          jobDescription := input.jobDescription, personalNotes := input.personalNotes }
      match flow flowInput with
      | .ok result => (.ok result, [flowInput])
      | .error m =>
        if m == "" then
          (.err "An unexpected error occurred during AI generation.", [flowInput])
        else if strContains400 m then
          (.err "AI Service Error: The request was rejected. Please check your API key configuration.",
            [flowInput])
        else (.err m, [flowInput])

/-! ## `useStats` — the usage counter -/

/-- The persisted counters: `{cvsSent, emailsSent}`. -/
structure Stats where
  cvsSent : Nat
  emailsSent : Nat
deriving DecidableEq, Repr

/-- `incrementStats(emails, cvs)` from `useStats`. -/
def incrementStats (prev : Stats) (emails cvs : Nat) : Stats :=
  { cvsSent := prev.cvsSent + cvs, emailsSent := prev.emailsSent + emails }

/-- `resetStats(code)` from `useStats`: compare `code` with the constant
`'1941'`; on a match zero both counters and return `true`, otherwise leave
the state unchanged and return `false`.  Returns (result, new state). -/
def resetStats (stats : Stats) (code : String) : Bool × Stats :=
  if code == "1941" then (true, { cvsSent := 0, emailsSent := 0 })
  else (false, stats)


/-! ## Concrete fixtures for witnesses and counterexamples -/

/-- An environment with no transport credentials set. -/
def envNoCreds : Env := { gmailEmail := none, gmailAppPassword := none, gmailSenderName := none }

/-- An environment with transport credentials set (live mode). -/
def envLive : Env :=
  { gmailEmail := some "me@gmail.com", gmailAppPassword := some "app-password"
    gmailSenderName := none }

/-- A transport that fulfils every send. -/
def transportOk : MailOptions → Except String Unit := fun _ => .ok ()

/-- A PDF extractor oracle that always throws. -/
def pdfStub : List Nat → Except String String := fun _ => .error "bad xref entry"

/-- A DOCX extractor oracle that always throws. -/
def docxStub : List Nat → Except String String := fun _ => .error "end of central directory not found"

/-- A base64 decoder oracle returning an empty buffer. -/
def b64Stub : String → List Nat := fun _ => []

/-- A model flow oracle that always succeeds. -/
def flowStub : FlowInput → Except String FlowOutput :=
  fun _ => .ok { subject := "Re: application", message := "Dear team" }

/-- A schema-invalid `sendEmail` input: one `to` entry is not an email. -/
def dataBadEmail : SendEmailInput :=
  { «from» := some "a@b.com", «to» := ["not-an-email"], subject := "Hello"
    html := "<p>hi</p>", attachment := none }

/-- A `sendEmail` input with valid addresses but empty `subject` and `html`. -/
def dataEmptySubject : SendEmailInput :=
  { «from» := some "a@b.com", «to» := ["c@d.com"], subject := "", html := ""
    attachment := none }

/-- A `sendEmail` input whose `to` list is empty. -/
def dataEmptyTo : SendEmailInput :=
  { «from» := some "a@b.com", «to» := [], subject := "s", html := "h"
    attachment := none }

/-- An attached CV file. -/
def file0 : FileModel := { name := "cv.pdf", mimeType := "application/pdf", contentBase64 := "QUJD" }

/-- Form values with one recipient and a message holding a newline and a `<`. -/
def formDataBasic : FormData :=
  { recipients := "a@b.com", subject := "S", message := "hello\nworld<" }

/-- Form values whose recipients string parses to zero recipients. -/
def formDataEmptyRecipients : FormData :=
  { recipients := " ; \n,", subject := "Subj", message := "Msg" }

/-- A `generatePersonalizedApplication` input carrying CV text directly. -/
def gpaInputSmall : GPAInput :=
  { recipientEmail := "a@b.com", cv := some "abc", cvFile := none, cvMimeType := none
    jobDescription := none, personalNotes := none }

/-! ## UTF-8 round-trip lemmas -/

/-- Unfolding equation for `utf8DecodeList` on a nonempty buffer. -/
theorem utf8DecodeList_cons (b : Nat) (rest : List Nat) :
    utf8DecodeList (b :: rest) =
      (utf8DecodeOne b rest).1 :: utf8DecodeList (utf8DecodeOne b rest).2 := by
  rw [utf8DecodeList]

/-- Every `Char` is a Unicode scalar value: below the surrogates or strictly
between them and `0x110000`. -/
theorem char_valid_ranges (c : Char) :
    c.toNat < 0xD800 ∨ (0xDFFF < c.toNat ∧ c.toNat < 0x110000) := c.valid

/-- A two-byte sequence with a well-formed lead and continuation decodes to
the reassembled scalar. -/
theorem utf8DecodeOne_two (b b1 : Nat) (tail : List Nat)
    (hb : 0xC2 ≤ b) (hb' : b < 0xE0) (hb1 : 0x80 ≤ b1) (hb1' : b1 < 0xC0) :
    utf8DecodeOne b (b1 :: tail) = (Char.ofNat ((b - 0xC0) * 64 + (b1 - 0x80)), tail) := by
  have hc : isContByte b1 = true := by unfold isContByte; simp; omega
  unfold utf8DecodeOne
  rw [if_neg (by omega), if_neg (by omega), if_pos (by omega)]
  simp [hc]

/-- A three-byte sequence with well-formed bytes decodes to the reassembled
scalar, provided it is neither overlong nor a surrogate. -/
theorem utf8DecodeOne_three (b b1 b2 : Nat) (tail : List Nat)
    (hb : 0xE0 ≤ b) (hb' : b < 0xF0) (hb1 : 0x80 ≤ b1) (hb1' : b1 < 0xC0)
    (hb2 : 0x80 ≤ b2) (hb2' : b2 < 0xC0)
    (hn : 0x800 ≤ (b - 0xE0) * 4096 + (b1 - 0x80) * 64 + (b2 - 0x80))
    (hs : ¬(0xD800 ≤ (b - 0xE0) * 4096 + (b1 - 0x80) * 64 + (b2 - 0x80) ∧
            (b - 0xE0) * 4096 + (b1 - 0x80) * 64 + (b2 - 0x80) < 0xE000)) :
    utf8DecodeOne b (b1 :: b2 :: tail) =
      (Char.ofNat ((b - 0xE0) * 4096 + (b1 - 0x80) * 64 + (b2 - 0x80)), tail) := by
  have hc1 : isContByte b1 = true := by unfold isContByte; simp; omega
  have hc2 : isContByte b2 = true := by unfold isContByte; simp; omega
  unfold utf8DecodeOne
  rw [if_neg (by omega), if_neg (by omega), if_neg (by omega), if_pos (by omega)]
  simp [hc1, hc2]
  omega

/-- A four-byte sequence with well-formed bytes decodes to the reassembled
scalar, provided it lies in `[0x10000, 0x110000)`. -/
theorem utf8DecodeOne_four (b b1 b2 b3 : Nat) (tail : List Nat)
    (hb : 0xF0 ≤ b) (hb' : b < 0xF5) (hb1 : 0x80 ≤ b1) (hb1' : b1 < 0xC0)
    (hb2 : 0x80 ≤ b2) (hb2' : b2 < 0xC0) (hb3 : 0x80 ≤ b3) (hb3' : b3 < 0xC0)
    (hn : 0x10000 ≤ (b - 0xF0) * 262144 + (b1 - 0x80) * 4096 + (b2 - 0x80) * 64 + (b3 - 0x80))
    (hn' : (b - 0xF0) * 262144 + (b1 - 0x80) * 4096 + (b2 - 0x80) * 64 + (b3 - 0x80) < 0x110000) :
    utf8DecodeOne b (b1 :: b2 :: b3 :: tail) =
      (Char.ofNat ((b - 0xF0) * 262144 + (b1 - 0x80) * 4096 + (b2 - 0x80) * 64 + (b3 - 0x80)),
        tail) := by
  have hc1 : isContByte b1 = true := by unfold isContByte; simp; omega
  have hc2 : isContByte b2 = true := by unfold isContByte; simp; omega
  have hc3 : isContByte b3 = true := by unfold isContByte; simp; omega
  unfold utf8DecodeOne
  rw [if_neg (by omega), if_neg (by omega), if_neg (by omega), if_neg (by omega),
    if_pos (by omega)]
  simp [hc1, hc2, hc3]
  omega

/-- Decoding the UTF-8 encoding of one character, followed by any tail,
recovers that character and leaves the tail. -/
theorem utf8DecodeList_encodeChar (c : Char) (tail : List Nat) :
    utf8DecodeList (utf8EncodeChar c ++ tail) = c :: utf8DecodeList tail := by
  have hv := char_valid_ranges c
  have hofn : Char.ofNat c.toNat = c := Char.ofNat_toNat c
  by_cases h1 : c.toNat < 0x80
  · have he : utf8EncodeChar c = [c.toNat] := by
      unfold utf8EncodeChar; rw [if_pos h1]
    rw [he, List.cons_append, List.nil_append, utf8DecodeList_cons]
    have hd : utf8DecodeOne c.toNat tail = (c, tail) := by
      unfold utf8DecodeOne; rw [if_pos h1, hofn]
    rw [hd]
  · by_cases h2 : c.toNat < 0x800
    · have he : utf8EncodeChar c = [0xC0 + c.toNat / 64, 0x80 + c.toNat % 64] := by
        unfold utf8EncodeChar; rw [if_neg h1, if_pos h2]
      rw [he, List.cons_append, List.cons_append, List.nil_append, utf8DecodeList_cons]
      rw [utf8DecodeOne_two _ _ _ (by omega) (by omega) (by omega) (by omega)]
      have harith : (0xC0 + c.toNat / 64 - 0xC0) * 64 + (0x80 + c.toNat % 64 - 0x80)
          = c.toNat := by omega
      rw [harith, hofn]
    · by_cases h3 : c.toNat < 0x10000
      · have he : utf8EncodeChar c =
            [0xE0 + c.toNat / 4096, 0x80 + (c.toNat / 64) % 64, 0x80 + c.toNat % 64] := by
          unfold utf8EncodeChar; rw [if_neg h1, if_neg h2, if_pos h3]
        rw [he, List.cons_append, List.cons_append, List.cons_append, List.nil_append,
          utf8DecodeList_cons]
        have harith : (0xE0 + c.toNat / 4096 - 0xE0) * 4096 +
            (0x80 + (c.toNat / 64) % 64 - 0x80) * 64 + (0x80 + c.toNat % 64 - 0x80)
            = c.toNat := by omega
        rw [utf8DecodeOne_three _ _ _ _ (by omega) (by omega) (by omega) (by omega)
          (by omega) (by omega) (by omega) (by omega)]
        rw [harith, hofn]
      · have he : utf8EncodeChar c =
            [0xF0 + c.toNat / 262144, 0x80 + (c.toNat / 4096) % 64,
             0x80 + (c.toNat / 64) % 64, 0x80 + c.toNat % 64] := by
          unfold utf8EncodeChar; rw [if_neg h1, if_neg h2, if_neg h3]
        rw [he, List.cons_append, List.cons_append, List.cons_append, List.cons_append,
          List.nil_append, utf8DecodeList_cons]
        have harith : (0xF0 + c.toNat / 262144 - 0xF0) * 262144 +
            (0x80 + (c.toNat / 4096) % 64 - 0x80) * 4096 +
            (0x80 + (c.toNat / 64) % 64 - 0x80) * 64 + (0x80 + c.toNat % 64 - 0x80)
            = c.toNat := by omega
        rw [utf8DecodeOne_four _ _ _ _ _ (by omega) (by omega) (by omega) (by omega)
          (by omega) (by omega) (by omega) (by omega) (by omega) (by omega)]
        rw [harith, hofn]

/-- Decode after encode is the identity on character lists. -/
theorem utf8DecodeList_encodeList (l : List Char) :
    utf8DecodeList (utf8EncodeList l) = l := by
  induction l with
  | nil => rw [utf8EncodeList, utf8DecodeList]
  | cons c cs ih => rw [utf8EncodeList, utf8DecodeList_encodeChar, ih]

/-- UTF-8 round trip: decoding the encoding of any string returns it. -/
theorem utf8Decode_encode (s : String) : utf8Decode (utf8Encode s) = s := by
  rcases s with ⟨data⟩
  rw [utf8Encode, utf8Decode, utf8DecodeList_encodeList]

/-! ## Claim theorems -/

/-- C1 counterexample: with credentials absent, `sendEmail` applied to a
schema-invalid input (a non-email `to` entry) never runs the schema
validation and still returns `{success: true}` — refuting the claim that it
"performs structural validation of the input". -/
theorem C1_counterexample :
    sendEmailSchemaCheck dataBadEmail = false ∧
    (sendEmail envNoCreds transportOk dataBadEmail).validationRun = false ∧
    (sendEmail envNoCreds transportOk dataBadEmail).result.success = true := by
  decide

/-- C1 (amended): for every input whose environment lacks transport
credentials, `sendEmail` skips validation entirely (it returns before the
schema check), makes no transport call, and returns a success result whose
message marks the send as simulated. -/
theorem C1_simulated_mode (env : Env) (transport : MailOptions → Except String Unit)
    (data : SendEmailInput) (h : envHasCreds env = false) :
    sendEmail env transport data =
      { result := { success := true
                    message := some ("Emailuri simulate cu succes pentru " ++
                      toString data.«to».length ++ " destinatari!")
                    error := none }
        transportCalls := []
        validationRun := false } := by
  simp [sendEmail, h]

/-- C1 witness: the amended theorem at the concrete credential-less
environment and invalid input. -/
theorem C1_simulated_mode_witness :
    sendEmail envNoCreds transportOk dataBadEmail =
      { result := { success := true
                    message := some ("Emailuri simulate cu succes pentru " ++
                      toString dataBadEmail.«to».length ++ " destinatari!")
                    error := none }
        transportCalls := []
        validationRun := false } :=
  C1_simulated_mode envNoCreds transportOk dataBadEmail (by decide)

/-- C2 counterexample: in live mode, an input with empty `subject` and empty
`html` (and valid addresses) is accepted — the transport is invoked and the
result is `{success: true}` — refuting the claim that validation accepts
only non-empty `subject`/`html`. -/
theorem C2_counterexample :
    dataEmptySubject.subject = "" ∧ dataEmptySubject.html = "" ∧
    envHasCreds envLive = true ∧
    (sendEmail envLive transportOk dataEmptySubject).result.success = true ∧
    (sendEmail envLive transportOk dataEmptySubject).transportCalls ≠ [] := by
  decide

/-- C2 (amended): in live mode validation always runs; it is insensitive to
`subject` and `html` (any strings, including empty, and any attachment
fields pass); an input failing the schema — `from` missing or not a valid
email, or some `to` entry not a valid email — is rejected with
`{success: false}` and no transport call; an input passing the schema
reaches the transport exactly once. -/
theorem sendEmail_live (env : Env) (transport : MailOptions → Except String Unit)
    (data : SendEmailInput) (h : envHasCreds env = true) :
    sendEmail env transport data =
      (if !sendEmailSchemaCheck data then
        { result := { success := false, message := none, error := some .validationError }
          transportCalls := [], validationRun := true }
      else
        let mailOptions := mkMailOptions env data.«to» data.subject data.html data.attachment
        match transport mailOptions with
        | .ok _ =>
          { result := { success := true
                        message := some ("Email trimis la " ++ toString data.«to».length ++
                          " destinatari.")
                        error := none }
            transportCalls := [mailOptions], validationRun := true }
        | .error m =>
          { result := { success := false, message := none
                        error := some (.transportError ("Trimiterea email-ului a eșuat: " ++ m)) }
            transportCalls := [mailOptions], validationRun := true }) := by
  unfold sendEmail
  rw [h]
  rfl

theorem C2_live_validation (env : Env) (transport : MailOptions → Except String Unit)
    (data : SendEmailInput) (h : envHasCreds env = true) :
    (sendEmail env transport data).validationRun = true ∧
    (∀ subj bodyHtml : String,
      sendEmailSchemaCheck { data with subject := subj, html := bodyHtml } =
        sendEmailSchemaCheck data) ∧
    (sendEmailSchemaCheck data = false →
      (sendEmail env transport data).result.success = false ∧
      (sendEmail env transport data).transportCalls = []) ∧
    (sendEmailSchemaCheck data = true →
      (sendEmail env transport data).transportCalls =
        [mkMailOptions env data.«to» data.subject data.html data.attachment]) := by
  have he := sendEmail_live env transport data h
  refine ⟨?_, ?_, ?_, ?_⟩
  · rw [he]
    by_cases hs : sendEmailSchemaCheck data = true
    · rw [hs]
      cases htr : transport (mkMailOptions env data.«to» data.subject data.html data.attachment) <;>
        simp [htr]
    · simp only [Bool.not_eq_true] at hs
      rw [hs]
      rfl
  · intro subj bodyHtml
    simp [sendEmailSchemaCheck]
  · intro hs
    rw [he, hs]
    exact ⟨rfl, rfl⟩
  · intro hs
    rw [he, hs]
    cases htr : transport (mkMailOptions env data.«to» data.subject data.html data.attachment) <;>
      simp [htr]

/-- C2 witness: the amended theorem at the concrete live environment and the
empty-subject input. -/
theorem C2_live_validation_witness :
    (sendEmail envLive transportOk dataEmptySubject).validationRun = true :=
  (C2_live_validation envLive transportOk dataEmptySubject (by decide)).1

/-- C8: `resetStats` zeroes both counters and returns `true` exactly when the
code is the constant `"1941"`; any other code returns `false` and leaves the
state unchanged. -/
theorem C8_resetStats_spec (stats : Stats) (code : String) :
    resetStats stats code =
      if code = "1941" then (true, { cvsSent := 0, emailsSent := 0 }) else (false, stats) := by
  by_cases h : code = "1941" <;> simp [resetStats, h]

/-- C5: `parseResume` on a buffer of length `0` returns the empty string and
does not fail, whatever the declared mime type and extractor oracles. -/
theorem C5_empty_buffer (pdfExtract docxExtract : List Nat → Except String String)
    (buffer : List Nat) (mimeType : String) (h : buffer.length = 0) :
    parseResume pdfExtract docxExtract buffer mimeType = .ok "" := by
  simp [parseResume, h]

/-- C5 witness: the empty buffer under an image mime type and throwing
oracles. -/
theorem C5_empty_buffer_witness :
    parseResume pdfStub docxStub [] "image/png" = .ok "" :=
  C5_empty_buffer pdfStub docxStub [] "image/png" (by decide)

/-- C4 counterexample: for the empty buffer and mime type `"image/png"` —
outside {pdf, docx, text/*} — `parseResume` returns `.ok ""` instead of the
claimed unsupported-format failure: the empty-buffer branch precedes the
mime-type dispatch. -/
theorem C4_counterexample :
    parseResume pdfStub docxStub [] "image/png" = .ok "" ∧
    strStartsWith "image/png" "text/" = false :=
  ⟨rfl, by decide⟩

/-- C4 (amended): for every NON-empty buffer and mime type outside
{`application/pdf`, the DOCX mime type, `text/*`}, `parseResume` fails, and
the error message names the offending mime type. -/
theorem C4_unsupported_format (pdfExtract docxExtract : List Nat → Except String String)
    (buffer : List Nat) (mimeType : String)
    (hne : buffer.length ≠ 0)
    (hpdf : mimeType ≠ "application/pdf")
    (hdocx : mimeType ≠ docxMimeType)
    (htext : strStartsWith mimeType "text/" = false) :
    parseResume pdfExtract docxExtract buffer mimeType =
      .error ("Unsupported file type: " ++ mimeType) := by
  have hp : mimeType ≠ "text/plain" := by
    intro he; rw [he] at htext; exact absurd htext (by decide)
  have hm : mimeType ≠ "text/markdown" := by
    intro he; rw [he] at htext; exact absurd htext (by decide)
  simp [parseResume, hne, hpdf, hdocx, htext, hp, hm]

/-- C4 witness: the amended theorem at a one-byte buffer and `"image/png"`. -/
theorem C4_unsupported_format_witness :
    parseResume pdfStub docxStub [137] "image/png" =
      .error ("Unsupported file type: " ++ "image/png") :=
  C4_unsupported_format pdfStub docxStub [137] "image/png"
    (by decide) (by decide) (by decide) (by decide)

/-- C10: the dispatcher's schema does not require a non-empty recipient list:
there is an input with `to = []` that passes validation, and in live mode
the transport is invoked with zero recipients. -/
theorem C10_empty_to_accepted :
    dataEmptyTo.«to» = [] ∧
    sendEmailSchemaCheck dataEmptyTo = true ∧
    envHasCreds envLive = true ∧
    (sendEmail envLive transportOk dataEmptyTo).transportCalls =
      [mkMailOptions envLive [] dataEmptyTo.subject dataEmptyTo.html dataEmptyTo.attachment] ∧
    (mkMailOptions envLive [] dataEmptyTo.subject dataEmptyTo.html dataEmptyTo.attachment).«to»
      = [] ∧
    (sendEmail envLive transportOk dataEmptyTo).result.success = true := by
  decide

/-- C9: whenever the raw recipients string parses to zero recipients, the
submit path raises a destructive (error) toast and `sendEmail` is never
invoked — no transport call can occur. -/
theorem C9_zero_recipients_rejected (env : Env) (transport : MailOptions → Except String Unit)
    (attachment : Option FileModel) (data : FormData)
    (h : parseRecipients data.recipients = []) :
    (onSubmit env transport attachment data).sendEmailCalls = [] ∧
    (onSubmit env transport attachment data).transportCalls = [] ∧
    ∃ t ∈ (onSubmit env transport attachment data).toasts, t.destructive = true := by
  rcases attachment with _ | file
  · refine ⟨rfl, rfl, ?_⟩
    exact ⟨_, List.mem_singleton.mpr rfl, rfl⟩
  · simp only [onSubmit, h]
    refine ⟨rfl, rfl, ?_⟩
    exact ⟨_, List.mem_singleton.mpr rfl, rfl⟩

/-- C9 witness: a recipients string of separators and blanks only, with an
attachment present. -/
theorem C9_zero_recipients_rejected_witness :
    (onSubmit envNoCreds transportOk (some file0) formDataEmptyRecipients).sendEmailCalls = [] :=
  (C9_zero_recipients_rejected envNoCreds transportOk (some file0) formDataEmptyRecipients
    (by decide)).1

/-- C3: every input `sendEmail` receives from the submit path has its HTML
body built by HTML-escaping the user message first and converting newlines
to `<br>` afterwards; on the concrete message
`<script>alert(1)</script>\nline2` this yields escaped literal tags followed
by `<br>`, never raw markup. -/
theorem C3_escape_before_br (env : Env) (transport : MailOptions → Except String Unit)
    (attachment : Option FileModel) (data : FormData) (inp : SendEmailInput)
    (h : inp ∈ (onSubmit env transport attachment data).sendEmailCalls) :
    inp.html = newlineToBr (escapeHtml data.message) ∧
    newlineToBr (escapeHtml "<script>alert(1)</script>\nline2") =
      "&lt;script&gt;alert(1)&lt;/script&gt;<br>line2" := by
  refine ⟨?_, by decide⟩
  rcases attachment with _ | file
  · simp [onSubmit] at h
  · simp only [onSubmit] at h
    by_cases hr : ((parseRecipients data.recipients).length == 0) = true
    · rw [if_pos hr] at h
      simp at h
    · rw [if_neg hr] at h
      simp at h
      rw [h]
      rfl

/-- C3 witness: the theorem at the concrete submit that dispatches
`formDataBasic`, whose message holds a newline and a `<`. -/
theorem C3_escape_before_br_witness :
    ({ «from» := none, «to» := ["a@b.com"], subject := "S", html := "hello<br>world&lt;"
       attachment := some { content := "QUJD", filename := "cv.pdf"
                            «type» := "application/pdf" } } : SendEmailInput).html =
      newlineToBr (escapeHtml formDataBasic.message) :=
  (C3_escape_before_br envNoCreds transportOk (some file0) formDataBasic _ (by decide)).1

/-- C6: for a `text/*` mime type, `parseResume` returns exactly the UTF-8
decoding of the buffer, and extraction is a left inverse of UTF-8 encoding:
decoding the encoded bytes of any text returns that text unchanged. -/
theorem C6_text_roundtrip (pdfExtract docxExtract : List Nat → Except String String)
    (mimeType : String) (h : strStartsWith mimeType "text/" = true) :
    (∀ buffer : List Nat,
      parseResume pdfExtract docxExtract buffer mimeType = .ok (utf8Decode buffer)) ∧
    (∀ s : String, parseResume pdfExtract docxExtract (utf8Encode s) mimeType = .ok s) := by
  have hpdf : mimeType ≠ "application/pdf" := by
    intro he; rw [he] at h; exact absurd h (by decide)
  have hdocx : mimeType ≠ docxMimeType := by
    intro he; rw [he] at h; exact absurd h (by decide)
  have hmain : ∀ buffer : List Nat,
      parseResume pdfExtract docxExtract buffer mimeType = .ok (utf8Decode buffer) := by
    intro buffer
    by_cases hb : buffer.length = 0
    · have hbe : buffer = [] := List.length_eq_zero.mp hb
      subst hbe
      have : utf8Decode [] = "" := by rw [utf8Decode, utf8DecodeList]
      rw [this]
      rfl
    · simp [parseResume, hb, hpdf, hdocx, h]
  refine ⟨hmain, fun s => ?_⟩
  rw [hmain (utf8Encode s), utf8Decode_encode]

/-- C6 witness: the round trip at a concrete Markdown text containing a
non-ASCII character. -/
theorem C6_text_roundtrip_witness :
    parseResume pdfStub docxStub (utf8Encode "# Résumé") "text/markdown" = .ok "# Résumé" :=
  (C6_text_roundtrip pdfStub docxStub "text/markdown" (by decide)).2 "# Résumé"

/-- C7: when `generatePersonalizedApplication` is given CV text directly, the
CV submitted to the model flow is `truncateCv` of it: the first 100000
characters plus the `"\n...[Truncated]"` marker when the text is longer than
100000 characters, the text unchanged otherwise. -/
theorem C7_cv_truncated (pdfExtract docxExtract : List Nat → Except String String)
    (base64Decode : String → List Nat) (flow : FlowInput → Except String FlowOutput)
    (input : GPAInput) (cvText : String)
    (hcv : input.cv = some cvText) (hne : cvText ≠ "") :
    (generatePersonalizedApplication pdfExtract docxExtract base64Decode flow input).2 =
      [{ recipientEmail := input.recipientEmail, cv := truncateCv cvText
         jobDescription := input.jobDescription, personalNotes := input.personalNotes }] ∧
    (cvText.length > 100000 →
      truncateCv cvText = substringTo cvText 100000 ++ "\n...[Truncated]") ∧
    (cvText.length ≤ 100000 → truncateCv cvText = cvText) := by
  have htr : envTruthy (some cvText) = true := by
    simp [envTruthy, hne]
  refine ⟨?_, ?_, ?_⟩
  · unfold generatePersonalizedApplication
    rw [hcv]
    rw [if_neg (by simp [htr])]
    simp only [htr, Bool.not_true, Bool.false_eq_true, if_false, Option.getD_some]
    cases hf : flow { recipientEmail := input.recipientEmail, cv := truncateCv cvText
                      jobDescription := input.jobDescription
                      personalNotes := input.personalNotes } <;>
      simp [hf] <;> (repeat' split) <;> rfl
  · intro hlong
    rw [truncateCv, if_pos (by simpa [MAX_CV_LENGTH] using hlong)]
    rfl
  · intro hshort
    rw [truncateCv, if_neg (by simp only [MAX_CV_LENGTH]; omega)]

/-- C7 witness: the theorem at a short concrete CV text. -/
theorem C7_cv_truncated_witness :
    (generatePersonalizedApplication pdfStub docxStub b64Stub flowStub gpaInputSmall).2 =
      [{ recipientEmail := gpaInputSmall.recipientEmail, cv := truncateCv "abc"
         jobDescription := gpaInputSmall.jobDescription
         personalNotes := gpaInputSmall.personalNotes }] :=
  (C7_cv_truncated pdfStub docxStub b64Stub flowStub gpaInputSmall "abc" rfl (by decide)).1
